import Mathlib

/-!
Shallow embedding of `app.py` of the Web_Summarizer-using-Langchain-Groq
repository, together with theorems settling the specification claims about
it.

Python strings are modelled as lists of characters (`Str`); the Python
string operations the program uses (`"sep".join`, `s.replace(old, new)`,
`s[:n]`, `s.strip()`) are embedded below as executable functions with the
same semantics on the inputs the program passes them.
-/

abbrev Str := List Char

/-- Embedding of Python `sep.join(parts)`. -/
def pyJoin (sep : Str) : List Str → Str
  | [] => []
  | [x] => x
  | x :: y :: xs => x ++ sep ++ pyJoin sep (y :: xs)

/-- Embedding of Python `s.replace(old, new)`: replaces every (leftmost,
non-overlapping) occurrence of `old` in `s` by `new`.  The program only
calls it with the non-empty pattern `"\x7btext\x7d"`, so the empty-pattern
edge case of Python is irrelevant and the function is the identity there. -/
def pyReplace (old new : Str) (s : Str) : Str :=
  match s with
  | [] => []
  | c :: rest =>
    if h : old ≠ [] ∧ old.isPrefixOf (c :: rest) then
      new ++ pyReplace old new ((c :: rest).drop old.length)
    else
      c :: pyReplace old new rest
  termination_by s.length
  decreasing_by
  · have h1 : 1 ≤ old.length := by
      cases old with
      | nil => exact absurd rfl h.1
      | cons a as => exact Nat.succ_le_succ (Nat.zero_le _)
    simp only [List.length_drop, List.length_cons]
    omega
  · simp

/-- Number of (leftmost, non-overlapping) occurrences of `pat` in `s`,
matching the occurrences `pyReplace` replaces. -/
def countOccs (pat : Str) (s : Str) : Nat :=
  match s with
  | [] => 0
  | c :: rest =>
    if h : pat ≠ [] ∧ pat.isPrefixOf (c :: rest) then
      1 + countOccs pat ((c :: rest).drop pat.length)
    else
      countOccs pat rest
  termination_by s.length
  decreasing_by
  · have h1 : 1 ≤ pat.length := by
      cases pat with
      | nil => exact absurd rfl h.1
      | cons a as => exact Nat.succ_le_succ (Nat.zero_le _)
    simp only [List.length_drop, List.length_cons]
    omega
  · simp

/-- Whether `pat` occurs as a contiguous substring of `s` (structural, so
it evaluates by `decide`). -/
def containsSub (pat : Str) : Str → Bool
  | [] => pat.isEmpty
  | c :: rest => pat.isPrefixOf (c :: rest) || containsSub pat rest

/-- Characters Python's default `str.strip()` removes (ASCII part; the
program only ever strips user-typed key strings). -/
def isPythonSpace (c : Char) : Bool :=
  c = ' ' || c = '\t' || c = '\n' || c = '\r' || c = '\x0b' || c = '\x0c'

/-- Embedding of Python `s.strip()`. -/
def pyStrip (s : Str) : Str :=
  ((s.dropWhile isPythonSpace).reverse.dropWhile isPythonSpace).reverse

/-- Embedding of a LangChain `Document` as the program uses it: only its
`page_content` field is ever read (`app.py` lines 44, 143). -/
structure Document where
  page_content : Str
deriving DecidableEq

/-- Embedding of the `PromptTemplate` fallback class of `app.py`
lines 23-26: a template string and the list of input variable names. -/
structure PromptTemplate where
  template : Str
  input_variables : List Str
deriving DecidableEq

/-- Python exceptions, as far as the program distinguishes them:
`app.py` line 162 catches `TypeError` specially; every other exception is
only caught by catch-all handlers. -/
inductive PyError where
  | typeError : PyError
  | exception : Str → PyError
deriving DecidableEq

/-- Model of the `ChatGroq` client (`app.py` lines 147-150): the two entry
points `SimpleChain.run` uses.  `invoke` returns the `.content` of the
message on success; either entry point may raise. -/
structure ChatGroq where
  invoke : Str → Except PyError Str
  predict : Str → Except PyError Str

/-- The `"\x7btext\x7d"` substitution placeholder. -/
def placeholder : Str := "{text}".data

/-- Embedding of the fallback `SimpleChain` class of `app.py` lines 38-57.
`prompt` is `none` when the prompt object lacks a `template` attribute
(the `getattr(self.prompt, "template", "\x7btext\x7d")` default on line 45). -/
structure SimpleChain where
  llm : ChatGroq
  prompt : Option PromptTemplate

/-- The prompt-rendering part of `SimpleChain.run` (`app.py` lines 44-46):
`text = "\n\n".join(d.page_content for d in (input_documents or []))`,
`template = getattr(self.prompt, "template", "\x7btext\x7d")`,
`final_prompt = template.replace("\x7btext\x7d", text)`. -/
def renderedPrompt (prompt : Option PromptTemplate)
    (input_documents : Option (List Document)) : Str :=
  let text := pyJoin "\n\n".data ((input_documents.getD []).map Document.page_content)
  let template := match prompt with
    | some p => p.template
    | none => placeholder
  pyReplace placeholder text template

/-- Embedding of `SimpleChain.run` (`app.py` lines 43-55): render the
prompt, try `llm.invoke(...).content`, fall back to `llm.predict(...)`,
and as a last resort return `final_prompt[:5000]`.  All exceptions from
the two inference calls are caught, so the function is total. -/
def SimpleChain.run (c : SimpleChain)
    (input_documents : Option (List Document)) : Str :=
  let final_prompt := renderedPrompt c.prompt input_documents
  match c.llm.invoke final_prompt with
  | .ok content => content
  | .error _ =>
    match c.llm.predict final_prompt with
    | .ok r => r
    | .error _ => final_prompt.take 5000

/-- Embedding of `make_prompt` (`app.py` lines 118-124), the f-string laid
out exactly as in the source. -/
def make_prompt (words : Nat) : PromptTemplate :=
  { template :=
      "Provide a clear, neutral summary in about ".data
        ++ (toString words).data
        ++ " words.\n\nContent:\n{text}\n\nInclude key points and conclusions.".data,
    input_variables := ["text".data] }

/-- A ChatGroq client both of whose entry points raise, used to exercise
the last-resort fallback layer. -/
def failingGroq : ChatGroq where
  invoke := fun _ => .error (.exception "boom".data)
  predict := fun _ => .error (.exception "boom".data)

/-! ### Lemmas about the embedded string operations -/

theorem isPrefixOf_self_append (l t : List Char) : l.isPrefixOf (l ++ t) = true := by
  induction l with
  | nil => simp [ List.isPrefixOf]
  | cons c cs ih => simp [ List.isPrefixOf, ih]

theorem pyReplace_nil (old new : Str) : pyReplace old new [] = [] := by
  simp [pyReplace]

theorem pyReplace_at (old new ys : Str) (h : old ≠ []) :
    pyReplace old new (old ++ ys) = new ++ pyReplace old new ys := by
  cases old with
  | nil => exact absurd rfl h
  | cons c cs =>
    rw [List.cons_append, pyReplace]
    rw [dif_pos ⟨h, by rw [← List.cons_append]; exact isPrefixOf_self_append _ _⟩]
    rw [← List.cons_append, List.drop_left]

theorem pyReplace_skip (p : Char) (pp new : Str) (xs ys : Str) (h : p ∉ xs) :
    pyReplace (p :: pp) new (xs ++ ys) = xs ++ pyReplace (p :: pp) new ys := by
  induction xs with
  | nil => simp
  | cons c cs ih =>
    have hcp : (p == c) = false := by
      simp only [beq_eq_false_iff_ne, ne_eq]
      intro hpc
      exact h (hpc ▸ List.mem_cons_self c cs)
    rw [List.cons_append, pyReplace]
    rw [dif_neg (by simp [ List.isPrefixOf, hcp])]
    rw [ih (fun hm => h (List.mem_cons_of_mem c hm))]
    rfl

theorem countOccs_nil (pat : Str) : countOccs pat [] = 0 := by
  simp [countOccs]

theorem countOccs_at (pat ys : Str) (h : pat ≠ []) :
    countOccs pat (pat ++ ys) = 1 + countOccs pat ys := by
  cases pat with
  | nil => exact absurd rfl h
  | cons c cs =>
    rw [List.cons_append, countOccs]
    rw [dif_pos ⟨h, by rw [← List.cons_append]; exact isPrefixOf_self_append _ _⟩]
    rw [← List.cons_append, List.drop_left]

theorem countOccs_skip (p : Char) (pp : Str) (xs ys : Str) (h : p ∉ xs) :
    countOccs (p :: pp) (xs ++ ys) = countOccs (p :: pp) ys := by
  induction xs with
  | nil => simp
  | cons c cs ih =>
    have hcp : (p == c) = false := by
      simp only [beq_eq_false_iff_ne, ne_eq]
      intro hpc
      exact h (hpc ▸ List.mem_cons_self c cs)
    rw [List.cons_append, countOccs]
    rw [dif_neg (by simp [ List.isPrefixOf, hcp])]
    exact ih (fun hm => h (List.mem_cons_of_mem c hm))

theorem countOccs_of_not_mem (p : Char) (pp s : Str) (h : p ∉ s) :
    countOccs (p :: pp) s = 0 := by
  have := countOccs_skip p pp s [] h
  rwa [List.append_nil, countOccs_nil] at this

theorem pyReplace_of_not_mem (p : Char) (pp new s : Str) (h : p ∉ s) :
    pyReplace (p :: pp) new s = s := by
  have h2 := pyReplace_skip p pp new s [] h
  simp only [List.append_nil, pyReplace_nil] at h2
  exact h2

theorem infix_of_containsSub (pat new : Str) (hp : pat ≠ []) :
    ∀ s : Str, containsSub pat s = true → new <:+: pyReplace pat new s := by
  intro s
  induction s with
  | nil =>
    intro h
    simp only [containsSub, List.isEmpty_iff] at h
    exact absurd h hp
  | cons c cs ih =>
    intro h
    rw [containsSub, Bool.or_eq_true] at h
    by_cases hpre : pat.isPrefixOf (c :: cs) = true
    · rw [pyReplace, dif_pos ⟨hp, hpre⟩]
      exact ⟨[], _, rfl⟩
    · rcases h with h | h
      · exact absurd h hpre
      · rw [pyReplace, dif_neg (by
          intro hcon
          exact hpre hcon.2)]
        exact List.infix_cons (ih h)

/-! ### Decimal digits never contain the placeholder's opening brace -/

theorem digitChar_ne_brace (m : Nat) : (Nat.digitChar m == '{') = false := by
  rcases Nat.lt_or_ge m 16 with h | h
  · interval_cases m <;> rfl
  · have h2 : Nat.digitChar m = '*' := by
      unfold Nat.digitChar
      repeat rw [if_neg (by omega)]
    rw [h2]
    rfl

theorem toDigitsCore_ne_brace (b : Nat) : ∀ (f n : Nat) (acc : List Char),
    (∀ c ∈ acc, (c == '{') = false) →
    ∀ c ∈ Nat.toDigitsCore b f n acc, (c == '{') = false := by
  intro f
  induction f with
  | zero => intro n acc hacc c hc; exact hacc c hc
  | succ f ih =>
    intro n acc hacc c hc
    simp only [Nat.toDigitsCore] at hc
    split at hc
    · rcases List.mem_cons.mp hc with h | h
      · rw [h]; exact digitChar_ne_brace _
      · exact hacc c h
    · refine ih _ _ ?_ c hc
      intro c' hc'
      rcases List.mem_cons.mp hc' with h | h
      · rw [h]; exact digitChar_ne_brace _
      · exact hacc c' h

theorem repr_no_brace (n : Nat) : '{' ∉ (toString n).data := by
  intro hmem
  have h : ∀ c ∈ Nat.toDigits 10 n, (c == '{') = false :=
    toDigitsCore_ne_brace 10 (n + 1) n [] (by simp)
  have hdata : (toString n).data = Nat.toDigits 10 n := rfl
  have h2 := h '{' (hdata ▸ hmem)
  simp at h2

/-! ### The `make_prompt` template, decomposed around its placeholder -/

theorem placeholder_cons : placeholder = '{' :: "text\x7d".data := rfl

theorem make_prompt_template_split (w : Nat) :
    (make_prompt w).template =
      "Provide a clear, neutral summary in about ".data
        ++ ((toString w).data
          ++ (" words.\n\nContent:\n".data
            ++ (placeholder ++ "\n\nInclude key points and conclusions.".data))) := by
  show "Provide a clear, neutral summary in about ".data
      ++ (toString w).data
      ++ " words.\n\nContent:\n{text}\n\nInclude key points and conclusions.".data = _
  rw [show " words.\n\nContent:\n{text}\n\nInclude key points and conclusions.".data
      = " words.\n\nContent:\n".data
        ++ (placeholder ++ "\n\nInclude key points and conclusions.".data) from rfl]
  simp [List.append_assoc]

theorem pyReplace_make_prompt (w : Nat) (t : Str) :
    pyReplace placeholder t (make_prompt w).template =
      "Provide a clear, neutral summary in about ".data
        ++ ((toString w).data
          ++ (" words.\n\nContent:\n".data
            ++ (t ++ "\n\nInclude key points and conclusions.".data))) := by
  have hA : '{' ∉ "Provide a clear, neutral summary in about ".data := by decide
  have hM : '{' ∉ " words.\n\nContent:\n".data := by decide
  have hB : '{' ∉ "\n\nInclude key points and conclusions.".data := by decide
  rw [make_prompt_template_split w, placeholder_cons]
  rw [pyReplace_skip _ _ _ _ _ hA]
  rw [pyReplace_skip _ _ _ _ _ (repr_no_brace w)]
  rw [pyReplace_skip _ _ _ _ _ hM]
  rw [pyReplace_at _ _ _ (by simp)]
  rw [pyReplace_of_not_mem _ _ _ _ hB]

theorem pyReplace_placeholder_self (t : Str) :
    pyReplace placeholder t placeholder = t := by
  calc pyReplace placeholder t placeholder
      = pyReplace placeholder t (placeholder ++ []) := by rw [List.append_nil]
    _ = t ++ pyReplace placeholder t [] := pyReplace_at _ _ _ (by decide)
    _ = t := by rw [pyReplace_nil, List.append_nil]

/-! ### Third-party collaborators, modelled from the spec -/

/-- Split `s` at the first occurrence of `sep`, returning the parts before
and after it, or `none` when `sep` does not occur. -/
def splitFirst (sep : Str) : Str → Option (Str × Str)
  | [] => none
  | c :: rest =>
    if sep.isPrefixOf (c :: rest) then some ([], (c :: rest).drop sep.length)
    else
      match splitFirst sep rest with
      | some (pre, post) => some (c :: pre, post)
      | none => none

namespace validators

/-- Modelled from the spec: URL parsing as §4.1 describes it — the scheme
is everything before the first `"://"`, the host everything after it up to
the first path, query or fragment delimiter. -/
def urlParts (s : Str) : Option (Str × Str) :=
  match splitFirst "://".data s with
  | none => none
  | some (scheme, rest) =>
    some (scheme, rest.takeWhile (fun c => !(c == '/' || c == '?' || c == '#')))

/-- Modelled from the spec: the third-party `validators.url` predicate
(called at `app.py` line 130), whose implementation is not part of this
repository.  Per spec §4.1 it accepts exactly the strings that parse as a
URL with a non-empty explicit scheme and a host component. -/
def url (s : Str) : Bool :=
  match urlParts s with
  | some (scheme, host) => !scheme.isEmpty && !host.isEmpty
  | none => false

end validators

/-! ### The submit handler of the main logic -/

/-- Embedding of the `chain.run` invocation with its retry (`app.py` lines
160-163): try `chain.run(input_documents=docs)`; if and only if that raises
`TypeError`, call `chain.run(docs)` positionally; any other exception
propagates. -/
def runChainWithRetry (kwResult posResult : Except PyError Str) :
    Except PyError Str :=
  match kwResult with
  | .ok s => .ok s
  | .error .typeError => posResult
  | .error e => .error e

/-- A summarization chain as the main logic calls it: `runKw` is
`chain.run(input_documents=docs)`, `runPos` is `chain.run(docs)`. -/
structure Chain where
  runKw : List Document → Except PyError Str
  runPos : List Document → Except PyError Str

/-- External operations the submit handler can perform, recorded in order. -/
inductive Effect where
  | validateUrl : Str → Effect
  | fetchUrl : Str → Effect
  | runChain : Effect
deriving DecidableEq

/-- The user-visible result of one submit action: each constructor is one
of the `st.error` / `st.success` terminal states of `app.py` lines 127-189. -/
inductive Outcome where
  | missingKey : Outcome
  | invalidUrl : Outcome
  | noContent : Outcome
  | errorMsg : PyError → Outcome
  | summarized : Str → Outcome
deriving DecidableEq

/-- Outcome of the submit handler together with the external operations it
performed, in order. -/
structure SubmitResult where
  outcome : Outcome
  effects : List Effect
deriving DecidableEq

/-- Embedding of the submit branch of the main logic (`app.py` lines
127-189): reject a blank key, then validate the URL, then fetch, then
report empty content, else build the prompt and run the chain (with the
`TypeError` retry); any exception from fetching or summarizing is caught
by the catch-all handler and shown as an error.  UI-only steps (spinners,
extracted-text preview, session-state update, download button) are elided;
`chainOf` stands for `load_summarize_chain(llm, chain_type, prompt)`. -/
def handleSubmit (groq_api_key url : Str) (validate : Str → Bool)
    (fetch : Str → Except PyError (List Document))
    (chainOf : PromptTemplate → Chain) (summary_words : Nat) : SubmitResult :=
  if pyStrip groq_api_key = [] then
    ⟨.missingKey, []⟩
  else if validate url = false then
    ⟨.invalidUrl, [.validateUrl url]⟩
  else
    match fetch url with
    | .error e => ⟨.errorMsg e, [.validateUrl url, .fetchUrl url]⟩
    | .ok docs =>
      if docs.isEmpty then
        ⟨.noContent, [.validateUrl url, .fetchUrl url]⟩
      else
        let prompt := make_prompt summary_words
        let chain := chainOf prompt
        match runChainWithRetry (chain.runKw docs) (chain.runPos docs) with
        | .ok summary =>
          ⟨.summarized summary, [.validateUrl url, .fetchUrl url, .runChain]⟩
        | .error e =>
          ⟨.errorMsg e, [.validateUrl url, .fetchUrl url, .runChain]⟩

/-! ### The per-session URL cache -/

/-- Session cache state for `load_url_content`: the memo table of the
`@st.cache_data` decorator (`app.py` line 109) plus a counter of actual
network fetches performed. -/
structure CacheState where
  entries : List (Str × List Document)
  fetchCount : Nat
deriving DecidableEq

/-- Modelled from the spec: `load_url_content` under its `@st.cache_data`
decorator (`app.py` lines 109-116).  The decorator's implementation is
third-party; per spec §4.2 it memoizes results keyed by the exact URL
string for the session.  `fetch` stands for the `UnstructuredURLLoader`
round trip the undecorated function body performs. -/
def load_url_content (fetch : Str → List Document) (st : CacheState)
    (url : Str) : List Document × CacheState :=
  match st.entries.lookup url with
  | some docs => (docs, st)
  | none =>
    let docs := fetch url
    (docs, ⟨(url, docs) :: st.entries, st.fetchCount + 1⟩)

/-! ### Claim theorems -/

theorem run_eq (c : SimpleChain) (docs : Option (List Document)) :
    c.run docs =
      match c.llm.invoke (renderedPrompt c.prompt docs) with
      | .ok content => content
      | .error _ =>
        match c.llm.predict (renderedPrompt c.prompt docs) with
        | .ok r => r
        | .error _ => (renderedPrompt c.prompt docs).take 5000 := rfl

theorem run_failing_empty :
    (SimpleChain.mk failingGroq (some ⟨placeholder, ["text".data]⟩)).run (some []) = [] := by
  have hrp : renderedPrompt (some ⟨placeholder, ["text".data]⟩) (some []) = [] := by
    show pyReplace placeholder (pyJoin "\n\n".data []) placeholder = []
    exact pyReplace_placeholder_self []
  unfold SimpleChain.run
  simp only [hrp]
  rfl

/-- C1 counterexample: `SimpleChain.run` does NOT always return non-empty
text or raise.  With both inference entry points raising, an empty document
list and the bare `"\x7btext\x7d"` template, it returns the empty string as a
normal (non-raising) result. -/
theorem run_returns_empty_cex :
    (SimpleChain.mk failingGroq (some ⟨placeholder, ["text".data]⟩)).run (some []) = [] :=
  run_failing_empty

/-- C1 (amended): `SimpleChain.run` never raises, and it returns the empty
string only when the source of the returned text is itself empty: either a
successful `llm.invoke` returned empty content, or `llm.invoke` raised and
a successful `llm.predict` returned the empty string, or both inference
calls raised and the rendered prompt itself is empty. -/
theorem run_empty_only_from_empty_sources (c : SimpleChain)
    (docs : Option (List Document)) (h : c.run docs = []) :
    c.llm.invoke (renderedPrompt c.prompt docs) = .ok [] ∨
    ((∃ e, c.llm.invoke (renderedPrompt c.prompt docs) = .error e) ∧
      c.llm.predict (renderedPrompt c.prompt docs) = .ok []) ∨
    ((∃ e, c.llm.invoke (renderedPrompt c.prompt docs) = .error e) ∧
      (∃ e, c.llm.predict (renderedPrompt c.prompt docs) = .error e) ∧
      renderedPrompt c.prompt docs = []) := by
  rw [run_eq] at h
  cases hi : c.llm.invoke (renderedPrompt c.prompt docs) with
  | ok content =>
    rw [hi] at h
    have h3 : content = [] := h
    left
    rw [h3]
  | error e1 =>
    rw [hi] at h
    cases hp : c.llm.predict (renderedPrompt c.prompt docs) with
    | ok r =>
      rw [hp] at h
      have h3 : r = [] := h
      right; left
      exact ⟨⟨e1, rfl⟩, by rw [h3]⟩
    | error e2 =>
      rw [hp] at h
      have h3 : (renderedPrompt c.prompt docs).take 5000 = [] := h
      right; right
      refine ⟨⟨e1, rfl⟩, ⟨e2, rfl⟩, ?_⟩
      rcases List.take_eq_nil_iff.mp h3 with h5 | h5
      · exact absurd h5 (by omega)
      · exact h5

theorem run_empty_only_from_empty_sources_witness :
    (SimpleChain.mk failingGroq (some ⟨placeholder, ["text".data]⟩)).run (some []) = [] ∧
    ((SimpleChain.mk failingGroq (some ⟨placeholder, ["text".data]⟩)).llm.invoke
        (renderedPrompt (some ⟨placeholder, ["text".data]⟩) (some [])) = .ok [] ∨
      ((∃ e, (SimpleChain.mk failingGroq (some ⟨placeholder, ["text".data]⟩)).llm.invoke
          (renderedPrompt (some ⟨placeholder, ["text".data]⟩) (some [])) = .error e) ∧
        (SimpleChain.mk failingGroq (some ⟨placeholder, ["text".data]⟩)).llm.predict
          (renderedPrompt (some ⟨placeholder, ["text".data]⟩) (some [])) = .ok []) ∨
      ((∃ e, (SimpleChain.mk failingGroq (some ⟨placeholder, ["text".data]⟩)).llm.invoke
          (renderedPrompt (some ⟨placeholder, ["text".data]⟩) (some [])) = .error e) ∧
        (∃ e, (SimpleChain.mk failingGroq (some ⟨placeholder, ["text".data]⟩)).llm.predict
          (renderedPrompt (some ⟨placeholder, ["text".data]⟩) (some [])) = .error e) ∧
        renderedPrompt (some ⟨placeholder, ["text".data]⟩) (some []) = [])) :=
  ⟨run_failing_empty, run_empty_only_from_empty_sources _ _ run_failing_empty⟩

/-- C2: if both `llm.invoke` and `llm.predict` raise on the rendered
prompt, `SimpleChain.run` returns (never raises) the rendered prompt
truncated to `final_prompt[:5000]`, a string of length at most 5000. -/
theorem run_all_failures_truncates (c : SimpleChain)
    (docs : Option (List Document)) (e1 e2 : PyError)
    (h1 : c.llm.invoke (renderedPrompt c.prompt docs) = .error e1)
    (h2 : c.llm.predict (renderedPrompt c.prompt docs) = .error e2) :
    c.run docs = (renderedPrompt c.prompt docs).take 5000 ∧
    (c.run docs).length ≤ 5000 := by
  have hr : c.run docs = (renderedPrompt c.prompt docs).take 5000 := by
    rw [run_eq, h1, h2]
  refine ⟨hr, ?_⟩
  rw [hr, List.length_take]
  omega

theorem run_all_failures_truncates_witness :
    (SimpleChain.mk failingGroq none).run (some [⟨"hi".data⟩]) =
      (renderedPrompt none (some [⟨"hi".data⟩])).take 5000 ∧
    ((SimpleChain.mk failingGroq none).run (some [⟨"hi".data⟩])).length ≤ 5000 :=
  run_all_failures_truncates _ _ (.exception "boom".data) (.exception "boom".data) rfl rfl

/-- C10: `SimpleChain.run` is total in its documents argument —
`input_documents=None` behaves exactly as the empty document list (the
`input_documents or []` default), and with no `template` attribute on the
prompt the default `"\x7btext\x7d"` template makes the rendered prompt equal the
blank-line-joined document text. -/
theorem run_total_with_defaults :
    (∀ (llm : ChatGroq) (tpl : Option PromptTemplate),
      (SimpleChain.mk llm tpl).run none = (SimpleChain.mk llm tpl).run (some [])) ∧
    (∀ docs : List Document,
      renderedPrompt none (some docs) =
        pyJoin "\n\n".data (docs.map Document.page_content)) := by
  constructor
  · intro llm tpl
    rfl
  · intro docs
    show pyReplace placeholder
      (pyJoin "\n\n".data (docs.map Document.page_content)) placeholder = _
    exact pyReplace_placeholder_self _

/-- C3: the fallback rendering joins document contents in sequence order
with a blank-line separator, so for documents `"A"` and `"B"` the joined
text is `"A\n\nB"` and, for any prompt template containing the
`"\x7btext\x7d"` slot, the rendered prompt contains `"A\n\nB"` as a
contiguous substring. -/
theorem fallback_rendering_joins_documents (tpl : PromptTemplate)
    (h : containsSub placeholder tpl.template = true) :
    pyJoin "\n\n".data
        ([Document.mk "A".data, Document.mk "B".data].map Document.page_content)
      = "A\n\nB".data ∧
    "A\n\nB".data <:+:
      renderedPrompt (some tpl) (some [Document.mk "A".data, Document.mk "B".data]) := by
  refine ⟨rfl, ?_⟩
  show "A\n\nB".data <:+: pyReplace placeholder
    (pyJoin "\n\n".data
      ([Document.mk "A".data, Document.mk "B".data].map Document.page_content))
    tpl.template
  exact infix_of_containsSub placeholder _ (by decide) tpl.template h

theorem fallback_rendering_joins_documents_witness :
    containsSub placeholder (make_prompt 300).template = true ∧
    (pyJoin "\n\n".data
        ([Document.mk "A".data, Document.mk "B".data].map Document.page_content)
      = "A\n\nB".data ∧
    "A\n\nB".data <:+:
      renderedPrompt (some (make_prompt 300))
        (some [Document.mk "A".data, Document.mk "B".data])) :=
  ⟨by decide, fallback_rendering_joins_documents (make_prompt 300) (by decide)⟩

/-- C4: for every word count `w` in the range [50, 1000] the slider
offers, `make_prompt w` (a pure function, hence deterministic) produces a
template whose static text contains the decimal numeral of `w` and exactly
one `"\x7btext\x7d"` placeholder; rendering `make_prompt 300` with the text
`"X"` yields a string that contains `"X"` and no residual placeholder. -/
theorem make_prompt_correct (w : Nat) (h50 : 50 ≤ w) (h1000 : w ≤ 1000) :
    (toString w).data <:+: (make_prompt w).template ∧
    countOccs placeholder (make_prompt w).template = 1 ∧
    "X".data <:+: pyReplace placeholder "X".data (make_prompt 300).template ∧
    containsSub placeholder
      (pyReplace placeholder "X".data (make_prompt 300).template) = false := by
  have hA : '{' ∉ "Provide a clear, neutral summary in about ".data := by decide
  have hM : '{' ∉ " words.\n\nContent:\n".data := by decide
  have hB : '{' ∉ "\n\nInclude key points and conclusions.".data := by decide
  refine ⟨?_, ?_, ?_, ?_⟩
  · exact ⟨"Provide a clear, neutral summary in about ".data,
      " words.\n\nContent:\n{text}\n\nInclude key points and conclusions.".data, rfl⟩
  · rw [make_prompt_template_split w, placeholder_cons]
    rw [countOccs_skip _ _ _ _ hA]
    rw [countOccs_skip _ _ _ _ (repr_no_brace w)]
    rw [countOccs_skip _ _ _ _ hM]
    rw [countOccs_at _ _ (by simp)]
    rw [countOccs_of_not_mem _ _ _ hB]
  · rw [pyReplace_make_prompt 300 "X".data]
    refine ⟨"Provide a clear, neutral summary in about ".data
      ++ ((toString 300).data ++ " words.\n\nContent:\n".data),
      "\n\nInclude key points and conclusions.".data, ?_⟩
    simp [List.append_assoc]
  · rw [pyReplace_make_prompt 300 "X".data]
    decide

theorem make_prompt_correct_witness :
    50 ≤ 300 ∧ 300 ≤ 1000 ∧
    ((toString 300).data <:+: (make_prompt 300).template ∧
    countOccs placeholder (make_prompt 300).template = 1 ∧
    "X".data <:+: pyReplace placeholder "X".data (make_prompt 300).template ∧
    containsSub placeholder
      (pyReplace placeholder "X".data (make_prompt 300).template) = false) :=
  ⟨by omega, by omega, make_prompt_correct 300 (by omega) (by omega)⟩

/-- C5: the URL validator accepts a string exactly when it parses as a URL
with a non-empty explicit scheme and a host component; in particular it
rejects `"example.com"` and accepts `"https://example.com"`. -/
theorem validators_url_iff :
    (∀ s : Str, validators.url s = true ↔
      ∃ scheme host, validators.urlParts s = some (scheme, host) ∧
        scheme ≠ [] ∧ host ≠ []) ∧
    validators.url "example.com".data = false ∧
    validators.url "https://example.com".data = true := by
  refine ⟨?_, by decide, by decide⟩
  intro s
  unfold validators.url
  cases hp : validators.urlParts s with
  | none =>
    simp only [Bool.false_eq_true, false_iff]
    rintro ⟨scheme, host, hsome, -⟩
    exact Option.noConfusion hsome
  | some pair =>
    obtain ⟨scheme, host⟩ := pair
    have hne : ∀ l : Str, l ≠ [] → l.isEmpty = false := by
      intro l hl
      cases l with
      | nil => exact absurd rfl hl
      | cons a as => rfl
    have hne2 : ∀ l : Str, l.isEmpty = false → l ≠ [] := by
      intro l hl hnil
      rw [hnil] at hl
      exact Bool.noConfusion hl
    constructor
    · intro h1
      rw [Bool.and_eq_true, Bool.not_eq_true', Bool.not_eq_true'] at h1
      exact ⟨scheme, host, rfl, hne2 _ h1.1, hne2 _ h1.2⟩
    · rintro ⟨scheme2, host2, heq, hs2, hh2⟩
      injection heq with heq2
      cases heq2
      show (!scheme.isEmpty && !host.isEmpty) = true
      rw [hne _ hs2, hne _ hh2]
      rfl

/-- C6: the chain invocation retries positionally exactly when the
keyword-argument call raises `TypeError`: a successful keyword call is
returned as is, a `TypeError` makes the result that of the positional
call, and any other exception propagates without a positional retry. -/
theorem chain_run_retry_spec (kwResult posResult : Except PyError Str) :
    (∀ s, kwResult = .ok s → runChainWithRetry kwResult posResult = .ok s) ∧
    (kwResult = .error .typeError → runChainWithRetry kwResult posResult = posResult) ∧
    (∀ e, kwResult = .error e → e ≠ .typeError →
      runChainWithRetry kwResult posResult = .error e) := by
  refine ⟨?_, ?_, ?_⟩
  · intro s h
    rw [h]
    rfl
  · intro h
    rw [h]
    rfl
  · intro e h hne
    rw [h]
    cases e with
    | typeError => exact absurd rfl hne
    | exception m => rfl

theorem chain_run_retry_spec_witness :
    runChainWithRetry (.ok "a".data) (.ok "b".data) = .ok "a".data ∧
    runChainWithRetry (.error .typeError) (.ok "b".data) = .ok "b".data ∧
    runChainWithRetry (.error (.exception "x".data)) (.ok "b".data) =
      .error (.exception "x".data) :=
  ⟨(chain_run_retry_spec _ _).1 _ rfl,
    (chain_run_retry_spec _ _).2.1 rfl,
    (chain_run_retry_spec _ _).2.2 _ rfl (by decide)⟩

/-- C7: when the loader succeeds with zero documents, the handler reports
"no content found" without invoking the summarization chain, and that
outcome is distinct from the fetch-failure outcome, which is reported via
the exception path. -/
theorem empty_docs_reports_no_content (key url : Str) (validate : Str → Bool)
    (fetch : Str → Except PyError (List Document))
    (chainOf : PromptTemplate → Chain) (w : Nat)
    (hkey : pyStrip key ≠ []) (hurl : validate url = true)
    (hfetch : fetch url = .ok []) :
    handleSubmit key url validate fetch chainOf w =
      ⟨.noContent, [.validateUrl url, .fetchUrl url]⟩ ∧
    Effect.runChain ∉ [Effect.validateUrl url, Effect.fetchUrl url] ∧
    (∀ e, Outcome.noContent ≠ Outcome.errorMsg e) ∧
    (∀ e, fetch url ≠ .error e) := by
  refine ⟨?_, by simp, fun e => by simp, fun e => by rw [hfetch]; simp⟩
  unfold handleSubmit
  rw [if_neg hkey, hurl, if_neg (by simp), hfetch]
  rfl

theorem empty_docs_reports_no_content_witness :
    pyStrip "k".data ≠ [] ∧
    validators.url "https://example.com".data = true ∧
    (handleSubmit "k".data "https://example.com".data validators.url
        (fun _ => .ok []) (fun _ => ⟨fun _ => .ok [], fun _ => .ok []⟩) 300 =
      ⟨.noContent, [.validateUrl "https://example.com".data,
        .fetchUrl "https://example.com".data]⟩ ∧
    Effect.runChain ∉ [Effect.validateUrl "https://example.com".data,
      Effect.fetchUrl "https://example.com".data] ∧
    (∀ e, Outcome.noContent ≠ Outcome.errorMsg e) ∧
    (∀ e, (fun (_ : Str) => (.ok [] : Except PyError (List Document)))
      "https://example.com".data ≠ .error e)) :=
  ⟨by decide, by decide,
    empty_docs_reports_no_content _ _ _ _ _ 300 (by decide) (by decide) rfl⟩

/-- C9: a Groq API key that is empty or consists only of whitespace is
treated as absent — the handler reports the missing-credential error and
performs no URL validation, no fetch and no chain invocation. -/
theorem whitespace_key_is_missing_credential (key url : Str)
    (validate : Str → Bool) (fetch : Str → Except PyError (List Document))
    (chainOf : PromptTemplate → Chain) (w : Nat)
    (h : key.all isPythonSpace = true) :
    handleSubmit key url validate fetch chainOf w = ⟨.missingKey, []⟩ := by
  have h1 : key.dropWhile isPythonSpace = [] := by
    rw [List.dropWhile_eq_nil_iff]
    intro x hx
    exact List.all_eq_true.mp h x hx
  have hstrip : pyStrip key = [] := by
    unfold pyStrip
    rw [h1]
    rfl
  unfold handleSubmit
  rw [if_pos hstrip]

theorem whitespace_key_is_missing_credential_witness :
    ("  \t\n".data.all isPythonSpace = true) ∧
    handleSubmit "  \t\n".data "https://example.com".data validators.url
      (fun _ => .ok [⟨"doc".data⟩]) (fun _ => ⟨fun _ => .ok [], fun _ => .ok []⟩) 300 =
      ⟨.missingKey, []⟩ :=
  ⟨by decide, whitespace_key_is_missing_credential _ _ _ _ _ 300 (by decide)⟩

/-- C8: within one session, a second `load_url_content` call with the
identical URL string is a cache hit: it returns the first call's result
unchanged and performs no new fetch, so a URL not yet cached is fetched
exactly once across the two calls. -/
theorem cached_load_single_fetch (fetch : Str → List Document)
    (s0 : CacheState) (url : Str) (h : s0.entries.lookup url = none) :
    (load_url_content fetch (load_url_content fetch s0 url).2 url).1 =
      (load_url_content fetch s0 url).1 ∧
    (load_url_content fetch (load_url_content fetch s0 url).2 url).2.fetchCount =
      (load_url_content fetch s0 url).2.fetchCount ∧
    (load_url_content fetch s0 url).2.fetchCount = s0.fetchCount + 1 := by
  have hfirst : load_url_content fetch s0 url =
      (fetch url, ⟨(url, fetch url) :: s0.entries, s0.fetchCount + 1⟩) := by
    unfold load_url_content
    rw [h]
  have hhit : ((url, fetch url) :: s0.entries).lookup url = some (fetch url) := by
    simp [List.lookup]
  rw [hfirst]
  unfold load_url_content
  rw [hhit]
  exact ⟨rfl, rfl, rfl⟩

theorem cached_load_single_fetch_witness :
    ((CacheState.mk [] 0).entries.lookup "https://example.com".data = none) ∧
    ((load_url_content (fun _ => [⟨"doc".data⟩])
        (load_url_content (fun _ => [⟨"doc".data⟩]) ⟨[], 0⟩ "https://example.com".data).2
        "https://example.com".data).1 =
      (load_url_content (fun _ => [⟨"doc".data⟩]) ⟨[], 0⟩ "https://example.com".data).1 ∧
    (load_url_content (fun _ => [⟨"doc".data⟩])
        (load_url_content (fun _ => [⟨"doc".data⟩]) ⟨[], 0⟩ "https://example.com".data).2
        "https://example.com".data).2.fetchCount =
      (load_url_content (fun _ => [⟨"doc".data⟩]) ⟨[], 0⟩ "https://example.com".data).2.fetchCount ∧
    (load_url_content (fun _ => [⟨"doc".data⟩]) ⟨[], 0⟩ "https://example.com".data).2.fetchCount = 0 + 1) :=
  ⟨rfl, cached_load_single_fetch _ _ _ rfl⟩
